import Mathlib

/-!
Verification development for the `ng_trajectory` Matryoshka optimizer and its
curvature penalizer.

The Python sources embedded here are
`ng_trajectory/penalizers/curvature/main.py` (the functions `init` and
`penalize`) and `ng_trajectory/optimizers/matryoshka/main.py` (the functions
`init`, `optimize` and `_opt`).  Real coordinates, curvatures and scores are
modelled as rationals (`ℚ`); numpy `n×3` sample arrays become lists of
`Point3`; the mutable module-level parameter list `P` of the penalizer becomes
an explicit `ParamState` value threaded through the calls; the diagnostic
`print` calls and the gated log records become explicit output lists in the
returned records.  External collaborator modules (selector, segmentator,
interpolator, criterion, the `transform` helpers) are abstracted as function
fields of configuration records, since their code lives outside the two
embedded files.
-/

namespace NGTrajectory

/-- A planar point: one row of an `n×2` numpy array. -/
structure Point2 where
  x : ℚ
  y : ℚ
deriving DecidableEq, Repr

/-- A dense trajectory sample: one row of an `n×(≥3)` numpy array, with
`x`, `y` and the signed curvature `k` (column index 2). -/
structure Point3 where
  x : ℚ
  y : ℚ
  k : ℚ
deriving DecidableEq, Repr

/-- Modelled from the spec: the parameter list of the penalizer, `P` (class
`ParameterList` of `ng_trajectory.parameter`, whose definition is not among
the embedded files; only its call sites are).  The curvature penalizer
declares a single parameter, `k_max`, created by
`P.createAdd("k_max", 1.5, float, ...)`, so the store reduces to that one
value.  `updateAll(d, reset)` overwrites the parameters whose keys occur in
the dictionary `d`; when `reset` is true it first restores every parameter to
its default.  `getValue` reads the stored value. -/
structure ParamState where
  k_max : ℚ
deriving DecidableEq, Repr

/-- Default value of the `k_max` parameter (`1.5` in `P.createAdd`). -/
def k_max_default : ℚ := 3 / 2

/-- The parameter state holding only defaults (fresh module import). -/
def P_default : ParamState := ⟨k_max_default⟩

/-- Modelled from the spec: `P.updateAll(d, reset)` restricted to the single
parameter `k_max`.  The dictionary is modelled as `Option ℚ`: `some v` when
the argument bag contains a `k_max` entry with value `v`, `none` otherwise
(entries for other keys, e.g. `candidate`, do not name a parameter and are
ignored by the store). -/
def P_updateAll (s : ParamState) (d : Option ℚ) (reset : Bool) : ParamState :=
  match d with
  | some v => ⟨v⟩
  | none => if reset then P_default else s

/-- Test of `penalize` line 63: whether a candidate sample `p` is within the
per-axis grid tolerance of some valid point, i.e.
`numpy.any(numpy.all(numpy.abs(valid_points - p[:2]) < grid, axis=1))`
with `grid` the two-element list `[gx, gy]` broadcast over the columns. -/
def pointValid (valid_points : List Point2) (gx gy : ℚ) (p : Point3) : Bool :=
  valid_points.any (fun v => decide (|v.x - p.x| < gx) && decide (|v.y - p.y| < gy))

/-- The samples collected into `INVALID_POINTS` by the loop of `penalize`
(lines 62-65): those failing the grid test. -/
def invalidPts (points : List Point3) (valid_points : List Point2) (gx gy : ℚ) :
    List Point3 :=
  points.filter (fun p => ! pointValid valid_points gx gy p)

/-- The counter `invalid` accumulated by the loop of `penalize`. -/
def countInvalid (points : List Point3) (valid_points : List Point2) (gx gy : ℚ) : ℕ :=
  (invalidPts points valid_points gx gy).length

/-- Rows selected by `points[(points[:, 2] > k_max) | (points[:, 2] < -k_max)]`:
the samples whose curvature exceeds the allowed band. -/
def kOffenders (points : List Point3) (km : ℚ) : List Point3 :=
  points.filter (fun p => decide (km < p.k) || decide (p.k < -km))

/-- The quantity `numpy.add(numpy.sum(points[points[:,2] > k_max, 2]),
-numpy.sum(points[points[:,2] < -k_max, 2]))` of `penalize` lines 68-74. -/
def kExcess (points : List Point3) (km : ℚ) : ℚ :=
  ((points.filter (fun p => decide (km < p.k))).map Point3.k).sum
    - ((points.filter (fun p => decide (p.k < -km))).map Point3.k).sum

/-- Everything `penalize` produces: its return value, the parameter state it
leaves behind (it mutates `P` via `updateAll(..., reset=False)`), the contents
of the module global `INVALID_POINTS` after the call, and the curvature lists
written to standard output by the unconditional `print` statements
(line 78 inside the `invalid == 0` branch, line 80 always). -/
structure PenalizeResult where
  value : ℚ
  state : ParamState
  invalid_points : List Point3
  prints : List (List ℚ)
deriving DecidableEq, Repr

/-- Embedding of `penalize` from `ng_trajectory/penalizers/curvature/main.py`
for the usual `n×(≥3)` input and a two-element grid list `[gx, gy]` (the shape
the optimizer always passes: `GRID` is a pair and the interpolator emits a
curvature column).  `overflown` is the `k_max` entry of the leftover keyword
arguments, if present. -/
def penalize (points : List Point3) (valid_points : List Point2) (gx gy : ℚ)
    (penalty : ℚ) (overflown : Option ℚ) (st : ParamState) : PenalizeResult :=
  let st1 := P_updateAll st overflown false
  let km := st1.k_max
  if countInvalid points valid_points gx gy = 0 then
    { value := kExcess points km / 100 * penalty * 10
      state := st1
      invalid_points := kOffenders points km
      prints := [(kOffenders points km).map Point3.k, (kOffenders points km).map Point3.k] }
  else
    { value := (countInvalid points valid_points gx gy : ℚ) * penalty * 10
      state := st1
      invalid_points := invalidPts points valid_points gx gy
      prints := [(kOffenders points km).map Point3.k] }

/-- Grid test for a bare `n×2` input (no curvature column). -/
def pointValid2 (valid_points : List Point2) (gx gy : ℚ) (p : Point2) : Bool :=
  valid_points.any (fun v => decide (|v.x - p.x| < gx) && decide (|v.y - p.y| < gy))

/-- The counter `invalid` of `penalize` on an `n×2` input; the loop only reads
the first two columns, so it is well defined there. -/
def countInvalid2 (points : List Point2) (valid_points : List Point2) (gx gy : ℚ) : ℕ :=
  (points.filter (fun p => ! pointValid2 valid_points gx gy p)).length

/-- Embedding of `penalize` applied to a points array with exactly two
columns.  After the validity loop, the code reads column 2
(`points[:, 2]`): at line 70 when `invalid == 0` and in any case at the
unconditional diagnostic `print` of line 80.  On an `n×2` array numpy raises
`IndexError: index 2 is out of bounds for axis 1 with size 2`, so the call
never returns a value. -/
def penalize_2col (points : List Point2) (valid_points : List Point2) (gx gy : ℚ)
    (_penalty : ℚ) (overflown : Option ℚ) (st : ParamState) : Except String ℚ :=
  let _st1 := P_updateAll st overflown false
  if countInvalid2 points valid_points gx gy = 0 then
    Except.error "IndexError: index 2 is out of bounds for axis 1 with size 2"
  else
    Except.error "IndexError: index 2 is out of bounds for axis 1 with size 2"

/-- Sum of negated curvatures equals the negated sum. -/
theorem sum_map_neg_k (l : List Point3) :
    (l.map (fun p => -p.k)).sum = -((l.map Point3.k).sum) := by
  induction l with
  | nil => simp
  | cons a t ih => simp [ih]; ring

/-- C1: if the number `n` of points with no valid point within the per-axis
grid tolerance is positive, `penalize` returns exactly `n · penalty_k · 10`. -/
theorem penalize_invalid_positive (points : List Point3) (valid_points : List Point2)
    (gx gy penalty : ℚ) (overflown : Option ℚ) (st : ParamState)
    (h : 0 < countInvalid points valid_points gx gy) :
    (penalize points valid_points gx gy penalty overflown st).value
      = (countInvalid points valid_points gx gy : ℚ) * penalty * 10 := by
  unfold penalize
  rw [if_neg (Nat.pos_iff_ne_zero.mp h)]

/-- Witness for C1 on a concrete input: one point far from the single valid
point, so `n = 1` and the returned value is `1 · 100 · 10 = 1000`. -/
theorem penalize_invalid_positive_witness :
    0 < countInvalid [⟨10, 10, 0⟩] [⟨0, 0⟩] 1 1
      ∧ (penalize [⟨10, 10, 0⟩] [⟨0, 0⟩] 1 1 100 none P_default).value
          = (countInvalid [⟨10, 10, 0⟩] [⟨0, 0⟩] 1 1 : ℚ) * 100 * 10 :=
  ⟨by norm_num [countInvalid, invalidPts, pointValid, List.filter],
   penalize_invalid_positive [⟨10, 10, 0⟩] [⟨0, 0⟩] 1 1 100 none P_default
     (by norm_num [countInvalid, invalidPts, pointValid, List.filter])⟩

/-- C2: when every point passes the grid test (`invalid = 0`), `penalize`
returns `((Σ_{κ>k_max} κ) + (Σ_{κ<−k_max} −κ)) / 100 · penalty_k · 10`, where
`k_max` is the value held by the parameter store after the update. -/
theorem penalize_curvature_path (points : List Point3) (valid_points : List Point2)
    (gx gy penalty : ℚ) (overflown : Option ℚ) (st : ParamState)
    (h : countInvalid points valid_points gx gy = 0) :
    (penalize points valid_points gx gy penalty overflown st).value
      = (((points.filter (fun p => decide ((P_updateAll st overflown false).k_max < p.k))).map Point3.k).sum
          + ((points.filter (fun p => decide (p.k < -(P_updateAll st overflown false).k_max))).map (fun p => -p.k)).sum)
        / 100 * penalty * 10 := by
  unfold penalize
  rw [if_pos h]
  rw [sum_map_neg_k]
  unfold kExcess
  ring

/-- Witness for C2, the literal scenario S5: a single feasible sample with
curvature `2.0`, default `k_max = 1.5`, penalty `100`; the score is `20`. -/
theorem penalize_curvature_path_witness :
    countInvalid [⟨0, 0, 2⟩] [⟨0, 0⟩] 1 1 = 0
      ∧ (penalize [⟨0, 0, 2⟩] [⟨0, 0⟩] 1 1 100 none P_default).value
          = (((([⟨0, 0, 2⟩] : List Point3).filter (fun p => decide ((P_updateAll P_default none false).k_max < p.k))).map Point3.k).sum
              + ((([⟨0, 0, 2⟩] : List Point3).filter (fun p => decide (p.k < -(P_updateAll P_default none false).k_max))).map (fun p => -p.k)).sum)
            / 100 * 100 * 10
      ∧ (penalize [⟨0, 0, 2⟩] [⟨0, 0⟩] 1 1 100 none P_default).value = 20 :=
  ⟨by norm_num [countInvalid, invalidPts, pointValid, List.filter],
   penalize_curvature_path [⟨0, 0, 2⟩] [⟨0, 0⟩] 1 1 100 none P_default
     (by norm_num [countInvalid, invalidPts, pointValid, List.filter]),
   by norm_num [penalize, countInvalid, invalidPts, pointValid, kExcess, kOffenders,
     P_updateAll, P_default, k_max_default, List.filter]⟩

/-- C6 (code bug): the docstring of `penalize` accepts `nx(>=2)` arrays and
the spec applies the curvature term only "if each `p` has a curvature
component"; yet on a two-column array whose single point coincides with a
valid point (so `invalid = 0`), the code reads the absent column 2 and raises
`IndexError` instead of returning `0`. -/
theorem penalize_2col_raises :
    countInvalid2 [⟨0, 0⟩] [⟨0, 0⟩] 1 1 = 0
      ∧ penalize_2col [⟨0, 0⟩] [⟨0, 0⟩] 1 1 100 none P_default
          = Except.error "IndexError: index 2 is out of bounds for axis 1 with size 2" :=
  ⟨by norm_num [countInvalid2, pointValid2, List.filter],
   by simp [penalize_2col]⟩

/-- A record written to the log file (`print(..., file=LOGFILE)` in `_opt`
and `optimize`). -/
inductive LogRec where
  | pointsA : List Point2 → LogRec
  | pointsT : List Point3 → LogRec
  | penaltyR : ℚ → LogRec
  | correct : ℚ → LogRec
  | solution : List Point2 → LogRec
  | final : ℚ → LogRec
deriving DecidableEq, Repr

/-- The module-level context read by `_opt`: the `MATRYOSHKA` map set (one
transformation per segment, abstracted as a function `Point2 → Point2`, since
`transform.matryoshkaMap` lives outside the embedded files), the collaborator
modules `INTERPOLATOR` and `CRITERION` (abstracted as functions), and the
globals `VALID_POINTS`, `GRID = [gx, gy]`, `PENALTY`, `PENALIZER_ARGS`
(modelled by its only parameter-relevant entry, a possible `k_max` value) and
`VERBOSITY`. -/
structure OptConfig where
  maps : List (Point2 → Point2)
  interpolate : List Point2 → List Point3
  criterion : List Point3 → ℚ
  valid_points : List Point2
  gx : ℚ
  gy : ℚ
  penalty : ℚ
  k_max_arg : Option ℚ
  verbosity : ℤ

/-- What one call of `_opt` produces: the returned score, the penalizer
parameter state left behind, whether `CRITERION.compute` was invoked, the
records written to `LOGFILE`, and the unconditional standard-output
diagnostics of the penalizer. -/
structure OptResult where
  score : ℚ
  state : ParamState
  criterionCalled : Bool
  logRecords : List LogRec
  stdout : List (List ℚ)

/-- Line 301 of `_opt`: each candidate row is mapped through the corresponding segment
Matryoshka transformation
(`[matryoshkaMap(MATRYOSHKA[i], [p])[0] for i, p in enumerate(points)]`). -/
def mapPoints (maps : List (Point2 → Point2)) (u : List Point2) : List Point2 :=
  (List.zip maps u).map (fun mp => mp.1 mp.2)

/-- The local `points` of `_opt` (candidate mapped to real coordinates). -/
def mappedD (cfg : OptConfig) (u : List Point2) : List Point2 :=
  mapPoints cfg.maps u

/-- The local `_points` of `_opt` (dense interpolated samples). -/
def interpD (cfg : OptConfig) (u : List Point2) : List Point3 :=
  cfg.interpolate (mappedD cfg u)

/-- The penalizer call of `_opt` line 308
(`PENALIZER.penalize(points=_points, valid_points=VALID_POINTS, grid=GRID,
penalty=PENALTY, candidate=points, **PENALIZER_ARGS)`). -/
def penalizeD (cfg : OptConfig) (st : ParamState) (u : List Point2) : PenalizeResult :=
  penalize (interpD cfg u) cfg.valid_points cfg.gx cfg.gy cfg.penalty cfg.k_max_arg st

/-- Embedding of `_opt` from `ng_trajectory/optimizers/matryoshka/main.py`:
map the candidate, interpolate, penalize; if the penalty is non-zero log the
gated records and return it, otherwise compute the criterion, log the gated
records and return it. -/
def _opt (cfg : OptConfig) (st : ParamState) (u : List Point2) : OptResult :=
  if (penalizeD cfg st u).value ≠ 0 then
    { score := (penalizeD cfg st u).value
      state := (penalizeD cfg st u).state
      criterionCalled := false
      logRecords :=
        (if 2 < cfg.verbosity then
          [LogRec.pointsA (mappedD cfg u), LogRec.pointsT (interpD cfg u)] else [])
          ++ (if 1 < cfg.verbosity then [LogRec.penaltyR (penalizeD cfg st u).value] else [])
      stdout := (penalizeD cfg st u).prints }
  else
    { score := cfg.criterion (interpD cfg u)
      state := (penalizeD cfg st u).state
      criterionCalled := true
      logRecords :=
        (if 2 < cfg.verbosity then
          [LogRec.pointsA (mappedD cfg u), LogRec.pointsT (interpD cfg u)] else [])
          ++ (if 1 < cfg.verbosity then [LogRec.correct (cfg.criterion (interpD cfg u))] else [])
      stdout := (penalizeD cfg st u).prints }

/-- The gated log records written by `optimize` after the final evaluation
(lines 271-274: `solution:` and `final:` at `VERBOSITY > 0`). -/
def optimizeLog (verbosity : ℤ) (points : List Point2) (final : ℚ) : List LogRec :=
  if 0 < verbosity then [LogRec.solution points, LogRec.final final] else []

/-- C3: if the penalizer returns a non-zero penalty, `_opt` returns that
penalty, the criterion is not invoked (the result does not depend on the
criterion module at all); if the penalty is zero, `_opt` returns exactly
`criterion.compute` of the interpolated points. -/
theorem opt_penalty_gating (cfg : OptConfig) (st : ParamState) (u : List Point2)
    (c2 : List Point3 → ℚ) :
    ((penalizeD cfg st u).value ≠ 0 →
        (_opt cfg st u).score = (penalizeD cfg st u).value
        ∧ (_opt cfg st u).criterionCalled = false
        ∧ (_opt { cfg with criterion := c2 } st u).score = (penalizeD cfg st u).value)
    ∧ ((penalizeD cfg st u).value = 0 →
        (_opt cfg st u).score = cfg.criterion (interpD cfg u)
        ∧ (_opt cfg st u).criterionCalled = true) := by
  have hpen : penalizeD { cfg with criterion := c2 } st u = penalizeD cfg st u := rfl
  constructor
  · intro h
    refine ⟨?_, ?_, ?_⟩ <;> simp [_opt, hpen, h]
  · intro h
    constructor <;> simp [_opt, h]

/-- Concrete `_opt` context for the witnesses: one segment with the identity
transformation, an interpolator attaching a zero curvature column, a constant
criterion, and a single valid point far from the candidate. -/
def cfgW : OptConfig :=
  ⟨[fun p => p], fun ps => ps.map (fun p => ⟨p.x, p.y, 0⟩), fun _ => 7,
    [⟨5, 5⟩], 1, 1, 100, none, 2⟩

/-- Witness for C3: a single far-away candidate point gives penalty `1000`,
which `_opt` returns whatever the criterion module is, without invoking it. -/
theorem opt_penalty_gating_witness :
    (_opt cfgW P_default [⟨0, 0⟩]).score = (penalizeD cfgW P_default [⟨0, 0⟩]).value
    ∧ (_opt cfgW P_default [⟨0, 0⟩]).criterionCalled = false
    ∧ (_opt { cfgW with criterion := fun _ => 9 } P_default [⟨0, 0⟩]).score
        = (penalizeD cfgW P_default [⟨0, 0⟩]).value :=
  opt_penalty_gating cfgW P_default [⟨0, 0⟩] (fun _ => 9) |>.1
    (by norm_num [cfgW, penalizeD, penalize, interpD, mappedD, mapPoints,
      countInvalid, invalidPts, pointValid, List.filter, List.zip, List.zipWith])

/-- Updating with `reset=False` twice with the same argument bag is
idempotent on the parameter store. -/
theorem P_updateAll_idem (s : ParamState) (d : Option ℚ) :
    P_updateAll (P_updateAll s d false) d false = P_updateAll s d false := by
  cases d <;> rfl

/-- The parameter state left behind by `penalize` is the `reset=False`
update of the incoming one. -/
theorem penalize_state (points : List Point3) (valid_points : List Point2)
    (gx gy penalty : ℚ) (o : Option ℚ) (st : ParamState) :
    (penalize points valid_points gx gy penalty o st).state = P_updateAll st o false := by
  unfold penalize
  split <;> rfl

/-- `penalize` reads the incoming state only through the `reset=False`
update, so two states with the same update give identical results. -/
theorem penalize_update_congr (points : List Point3) (valid_points : List Point2)
    (gx gy penalty : ℚ) (o : Option ℚ) (st st2 : ParamState)
    (h : P_updateAll st o false = P_updateAll st2 o false) :
    penalize points valid_points gx gy penalty o st
      = penalize points valid_points gx gy penalty o st2 := by
  unfold penalize
  rw [h]

/-- The parameter state after `_opt` is the `reset=False` update of the
incoming one, in both branches. -/
theorem opt_state (cfg : OptConfig) (st : ParamState) (u : List Point2) :
    (_opt cfg st u).state = P_updateAll st cfg.k_max_arg false := by
  unfold _opt
  split <;> simp [penalizeD, penalize_state]

/-- C9: evaluation is deterministic — re-evaluating the same candidate under
the same configuration, starting from the state the first evaluation left
behind, returns the identical score (the `reset=False` parameter
update is idempotent, so the first call cannot perturb the second). -/
theorem opt_deterministic (cfg : OptConfig) (st : ParamState) (u : List Point2) :
    (_opt cfg ((_opt cfg st u).state) u).score = (_opt cfg st u).score
      ∧ (_opt cfg ((_opt cfg st u).state) u) = (_opt cfg st u) := by
  have hpen : penalizeD cfg ((_opt cfg st u).state) u = penalizeD cfg st u := by
    rw [opt_state]
    exact penalize_update_congr _ _ _ _ _ _ _ _ (P_updateAll_idem st cfg.k_max_arg)
  have h2 : (_opt cfg ((_opt cfg st u).state) u) = (_opt cfg st u) := by
    generalize hs : (_opt cfg st u).state = s2 at hpen ⊢
    unfold _opt
    rw [hpen]
  exact ⟨by rw [h2], h2⟩

/-- Whether a log record is one of the per-candidate point records
(`pointsA:`, `pointsT:`). -/
def isPerCandidateRec : LogRec → Bool
  | LogRec.pointsA _ => true
  | LogRec.pointsT _ => true
  | _ => false

/-- Whether a log record is a penalty or correct-score record
(`penalty:`, `correct:`). -/
def isScoreRec : LogRec → Bool
  | LogRec.penaltyR _ => true
  | LogRec.correct _ => true
  | _ => false

/-- Both branches of `penalize` execute at least the unconditional diagnostic
`print` of line 80, so its standard output is never empty. -/
theorem penalize_prints_ne_nil (points : List Point3) (valid_points : List Point2)
    (gx gy penalty : ℚ) (o : Option ℚ) (st : ParamState) :
    (penalize points valid_points gx gy penalty o st).prints ≠ [] := by
  unfold penalize
  split <;> simp

/-- C7 counterexample: at `logging_verbosity = 0` an evaluation writes no
log-file record, yet the penalizer still prints its diagnostic line to
standard output — output is emitted, refuting "at verbosity 0 nothing is
emitted". -/
theorem log_silent_counterexample :
    ({ cfgW with verbosity := 0 } : OptConfig).verbosity = 0
    ∧ (_opt { cfgW with verbosity := 0 } P_default [⟨0, 0⟩]).logRecords = []
    ∧ (_opt { cfgW with verbosity := 0 } P_default [⟨0, 0⟩]).stdout ≠ [] := by
  refine ⟨rfl, ?_, ?_⟩ <;>
    norm_num [_opt, cfgW, penalizeD, penalize, interpD, mappedD, mapPoints,
      countInvalid, invalidPts, pointValid, kOffenders, P_updateAll, P_default,
      k_max_default, List.filter]

/-- C7 (amended): the log-file records are gated by `logging_verbosity`
exactly as claimed — per-candidate point records require verbosity `> 2`, the
penalty or correct score record requires verbosity `> 1`, and the final
`solution`/`final` records of `optimize` require verbosity `> 0` — but the
penalizer additionally writes its diagnostics to standard output
unconditionally, so the run is not silent at verbosity `0`. -/
theorem log_gating (cfg : OptConfig) (st : ParamState) (u : List Point2)
    (v : ℤ) (ps : List Point2) (f : ℚ) :
    (((_opt cfg st u).logRecords.any isPerCandidateRec = true) ↔ 2 < cfg.verbosity)
    ∧ (((_opt cfg st u).logRecords.any isScoreRec = true) ↔ 1 < cfg.verbosity)
    ∧ (_opt cfg st u).stdout ≠ []
    ∧ (optimizeLog v ps f = [] ↔ v ≤ 0)
    ∧ (0 < v → optimizeLog v ps f = [LogRec.solution ps, LogRec.final f]) := by
  refine ⟨?_, ?_, ?_, ?_, ?_⟩
  · unfold _opt
    split <;> by_cases h2 : 2 < cfg.verbosity <;> by_cases h1 : 1 < cfg.verbosity <;>
      simp [h2, h1, isPerCandidateRec]
  · unfold _opt
    split <;> by_cases h2 : 2 < cfg.verbosity <;> by_cases h1 : 1 < cfg.verbosity <;>
      simp [h2, h1, isScoreRec, isPerCandidateRec]
  · unfold _opt
    split <;> exact penalize_prints_ne_nil _ _ _ _ _ _ _
  · unfold optimizeLog
    split
    · simp
      omega
    · simp
      omega
  · intro hv
    unfold optimizeLog
    rw [if_pos hv]

/-- Witness for C7 (amended) at a concrete context with verbosity `2` and a
final report at verbosity `1`. -/
theorem log_gating_witness :
    (((_opt cfgW P_default [⟨0, 0⟩]).logRecords.any isPerCandidateRec = true) ↔ 2 < cfgW.verbosity)
    ∧ (((_opt cfgW P_default [⟨0, 0⟩]).logRecords.any isScoreRec = true) ↔ 1 < cfgW.verbosity)
    ∧ (_opt cfgW P_default [⟨0, 0⟩]).stdout ≠ []
    ∧ (optimizeLog 1 [] 5 = [] ↔ (1 : ℤ) ≤ 0)
    ∧ optimizeLog 1 [] 5 = [LogRec.solution [], LogRec.final 5] :=
  ⟨(log_gating cfgW P_default [⟨0, 0⟩] 1 [] 5).1,
   (log_gating cfgW P_default [⟨0, 0⟩] 1 [] 5).2.1,
   (log_gating cfgW P_default [⟨0, 0⟩] 1 [] 5).2.2.1,
   (log_gating cfgW P_default [⟨0, 0⟩] 1 [] 5).2.2.2.1,
   (log_gating cfgW P_default [⟨0, 0⟩] 1 [] 5).2.2.2.2 (by decide)⟩

/-- The `_opt` context with fallible collaborators: the interpolator and the
criterion may raise (modelled as `Except`).  `_opt` itself contains no
`try`/`except`, so a raise in either collaborator propagates out of the
evaluation. -/
structure OptConfigX where
  maps : List (Point2 → Point2)
  interpolate : List Point2 → Except String (List Point3)
  criterion : List Point3 → Except String ℚ
  valid_points : List Point2
  gx : ℚ
  gy : ℚ
  penalty : ℚ
  k_max_arg : Option ℚ

/-- Embedding of `_opt` with fallible collaborators, mirroring the absence of
exception handling in the source: an interpolator exception aborts the call
before the penalizer runs, and with zero penalty the outcome of the criterion —
value or exception — is returned unchanged. -/
def _optX (cfg : OptConfigX) (st : ParamState) (u : List Point2) : Except String ℚ :=
  match cfg.interpolate (mapPoints cfg.maps u) with
  | Except.error e => Except.error e
  | Except.ok iPoints =>
    if (penalize iPoints cfg.valid_points cfg.gx cfg.gy cfg.penalty cfg.k_max_arg st).value ≠ 0 then
      Except.ok (penalize iPoints cfg.valid_points cfg.gx cfg.gy cfg.penalty cfg.k_max_arg st).value
    else
      cfg.criterion iPoints

/-- Whether a fallible evaluation produced a score at all. -/
def isScoreX : Except String ℚ → Bool
  | Except.ok _ => true
  | Except.error _ => false

/-- Fallible `_opt` context whose interpolator raises. -/
def cfgX : OptConfigX :=
  ⟨[fun p => p], fun _ => Except.error "interpolation failed", fun _ => Except.ok 7,
    [⟨5, 5⟩], 1, 1, 100, none⟩

/-- Fallible `_opt` context whose interpolator succeeds (zero curvature, the
candidate lies on a valid point, so the penalty is zero) and whose criterion
raises. -/
def cfgX2 : OptConfigX :=
  ⟨[fun p => p], fun ps => Except.ok (ps.map (fun p => ⟨p.x, p.y, 0⟩)),
    fun _ => Except.error "criterion failed", [⟨0, 0⟩], 1, 1, 100, none⟩

/-- C4 counterexample: with an interpolator that raises, the evaluation of
the candidate produces no score at all — the exception propagates out of
`_opt` — rather than a `+∞` score with a logged failure. -/
theorem opt_failure_counterexample :
    _optX cfgX P_default [⟨0, 0⟩] = Except.error "interpolation failed"
    ∧ isScoreX (_optX cfgX P_default [⟨0, 0⟩]) = false :=
  ⟨rfl, rfl⟩

/-- C4 (amended): an exception raised by the interpolator propagates out of
`_opt` unchanged (the penalizer and criterion never run), and with a feasible
candidate an exception raised by the criterion propagates likewise; no
conversion to `+∞` and no failure logging happen inside the evaluation. -/
theorem opt_failure_propagates (cfg : OptConfigX) (st : ParamState) (u : List Point2)
    (e : String) (D : List Point3) :
    (cfg.interpolate (mapPoints cfg.maps u) = Except.error e →
        _optX cfg st u = Except.error e)
    ∧ (cfg.interpolate (mapPoints cfg.maps u) = Except.ok D →
        (penalize D cfg.valid_points cfg.gx cfg.gy cfg.penalty cfg.k_max_arg st).value = 0 →
        cfg.criterion D = Except.error e →
        _optX cfg st u = Except.error e) := by
  constructor
  · intro h
    unfold _optX
    rw [h]
  · intro h hp hc
    unfold _optX
    rw [h]
    simp [hp, hc]

/-- Witness for C4 (amended): the interpolator exception of `cfgX` and the
criterion exception of `cfgX2` both propagate. -/
theorem opt_failure_propagates_witness :
    _optX cfgX P_default [⟨0, 0⟩] = Except.error "interpolation failed"
    ∧ _optX cfgX2 P_default [⟨0, 0⟩] = Except.error "criterion failed" :=
  ⟨(opt_failure_propagates cfgX P_default [⟨0, 0⟩] "interpolation failed" []).1 rfl,
   (opt_failure_propagates cfgX2 P_default [⟨0, 0⟩] "criterion failed"
      [⟨0, 0, 0⟩]).2 rfl
     (by norm_num [penalize, countInvalid, invalidPts, pointValid, kExcess,
        cfgX2, P_updateAll, P_default, k_max_default, List.filter])
     rfl⟩

/-- C10: a `k_max` supplied through the extra keyword arguments of one
`penalize` call is stored in the module-level parameter list (which is never
reset, `reset=False`) and is reused by every later call that does not supply
it; consequently two `penalize` calls with identical explicit arguments can
return different values depending on the earlier call history. -/
theorem penalize_param_persistence :
    (∀ (points : List Point3) (valid_points : List Point2) (gx gy penalty v : ℚ)
        (st : ParamState),
        (penalize points valid_points gx gy penalty (some v) st).state = ⟨v⟩)
    ∧ (∀ (points : List Point3) (valid_points : List Point2) (gx gy penalty : ℚ)
        (st : ParamState),
        (penalize points valid_points gx gy penalty none st).state = st)
    ∧ (penalize [⟨0, 0, 1⟩] [⟨0, 0⟩] 1 1 100 none
          ((penalize [⟨0, 0, 1⟩] [⟨0, 0⟩] 1 1 100 (some (1 / 2)) P_default).state)).value
        ≠ (penalize [⟨0, 0, 1⟩] [⟨0, 0⟩] 1 1 100 none P_default).value := by
  refine ⟨?_, ?_, ?_⟩
  · intro points valid_points gx gy penalty v st
    rw [penalize_state]
    rfl
  · intro points valid_points gx gy penalty st
    rw [penalize_state]
    rfl
  · norm_num [penalize, countInvalid, invalidPts, pointValid, kExcess, kOffenders,
      P_updateAll, P_default, k_max_default, List.filter]

/-- Positive pairwise differences occurring in a coordinate list. -/
def posDiffs (l : List ℚ) : List ℚ :=
  ((l.map (fun a => l.map (fun b => a - b))).flatten).filter (fun d => decide (0 < d))

/-- Modelled from the spec: `gridCompute` of `ng_trajectory.segmentators.utils`
(not among the embedded files; `init` and `penalize` only call it).  Per §4.1
of the spec, for a point cloud on a regular grid it returns the minimum
non-zero coordinate difference across both axes. -/
def gridCompute (points : List Point2) : ℚ :=
  let ds := posDiffs (points.map Point2.x) ++ posDiffs (points.map Point2.y)
  ds.foldr min (ds.headD 1)

/-- A per-segment Matryoshka: the 2D parameter table of layered closed
curves (spec §3), as produced by `transform.matryoshkaCreate`. -/
def Mapping : Type := List (List Point2)
deriving DecidableEq, Repr

/-- The collaborator operations invoked by the rebuild branch of the
init function of the optimizer: `SELECTOR.select`, `SEGMENTATOR.segmentate` and the
`transform` helpers.  All of them live outside the embedded files, so they
are abstracted as functions. -/
structure InitConfig where
  select : List Point2 → ℕ → List Point2
  segmentate : List Point2 → List Point2 → List (List Point2)
  groupsBorderObtain : List (List Point2) → List (List Point2)
  groupsBorderBeautify : List (List Point2) → ℕ → List (List Point2)
  groupsCenterCompute : List (List Point2) → List Point2
  matryoshkaCreate : List Point2 → Point2 → ℕ → Mapping

/-- The module-level state of the optimizer touched by `init`: the
`MATRYOSHKA` map set and the `GRID` pair.  Both start out as `None` when the
module is imported and are never reset to `None`. -/
structure MtrxState where
  matryoshka : Option (List Mapping)
  grid : Option (ℚ × ℚ)
deriving DecidableEq, Repr

/-- Which collaborator work one `init` call performed: whether the rebuild
branch ran, and how many times the selector, the segmentator and
`matryoshkaCreate` were invoked. -/
structure InitEffects where
  rebuilt : Bool
  selectorCalls : ℕ
  segmentatorCalls : ℕ
  buildCalls : ℕ
deriving DecidableEq, Repr

/-- Embedding of the `init` function of
`ng_trajectory/optimizers/matryoshka/main.py`, restricted to the state the
claims are about: the branch `if MATRYOSHKA is None or not hold_matryoshka:`
re-runs selection, segmentation and the Matryoshka construction and stores
the new map set; inside that branch, `GRID` is assigned only when it is still
`None` — from the supplied `grid` option when that has exactly two entries,
otherwise as the `gridCompute` value duplicated for both axes.  Outside the
branch the state is left untouched.  Returns the new state together with the
record of performed effects. -/
def init (cfg : InitConfig) (s : MtrxState) (points group_centerline : List Point2)
    (groups layers : ℕ) (hold_matryoshka : Bool) (grid : List ℚ) :
    MtrxState × InitEffects :=
  if s.matryoshka.isNone || !hold_matryoshka then
    let group_centers := cfg.select group_centerline groups
    let gs := cfg.segmentate points group_centers
    let grouplayers := cfg.groupsBorderBeautify (cfg.groupsBorderObtain gs) 400
    let layers_center := cfg.groupsCenterCompute gs
    let m := (List.range gs.length).map
      (fun i => cfg.matryoshkaCreate (grouplayers.getD i []) (layers_center.getD i ⟨0, 0⟩) layers)
    let newGrid :=
      if s.grid.isNone then
        if grid.length = 2 then some (grid.getD 0 0, grid.getD 1 0)
        else some (gridCompute points, gridCompute points)
      else s.grid
    (⟨some m, newGrid⟩, ⟨true, 1, 1, gs.length⟩)
  else
    (s, ⟨false, 0, 0, 0⟩)

/-- C5: the map set is rebuilt if and only if none exists yet or
`hold_matryoshka` is false; when `hold_matryoshka` is true and a map set
exists, `init` returns the state unchanged and performs no selection,
segmentation or Matryoshka construction. -/
theorem init_hold_matryoshka (cfg : InitConfig) (s : MtrxState)
    (points centerline : List Point2) (groups layers : ℕ) (hold : Bool) (grid : List ℚ) :
    ((init cfg s points centerline groups layers hold grid).2.rebuilt = true
        ↔ (s.matryoshka = none ∨ hold = false))
    ∧ (hold = true → ∀ m, s.matryoshka = some m →
        (init cfg s points centerline groups layers hold grid).1 = s
        ∧ (init cfg s points centerline groups layers hold grid).2 = ⟨false, 0, 0, 0⟩) := by
  constructor
  · unfold init
    cases hm : s.matryoshka <;> cases hold <;> simp [hm]
  · rintro rfl m hm
    unfold init
    simp [hm]

/-- Concrete collaborator set used by the `init` witnesses: constant
selector, one-cluster segmentator, identity border helpers, trivial centre
and a one-layer table builder. -/
def cfgI : InitConfig :=
  ⟨fun c _ => c, fun _ gc => [gc], fun g => g, fun g _ => g,
    fun g => g.map (fun _ => ⟨0, 0⟩), fun b _ _ => [b]⟩

/-- A held state: a map set already exists and the grid is set. -/
def sHeld : MtrxState := ⟨some [[[⟨0, 0⟩]]], some (1, 1)⟩

/-- Witness for C5: with `hold_matryoshka = true` and an existing map set,
`init` changes nothing and performs no collaborator work. -/
theorem init_hold_matryoshka_witness :
    (init cfgI sHeld [] [] 1 5 true []).1 = sHeld
    ∧ (init cfgI sHeld [] [] 1 5 true []).2 = ⟨false, 0, 0, 0⟩ :=
  (init_hold_matryoshka cfgI sHeld [] [] 1 5 true []).2 rfl [[[⟨0, 0⟩]]] rfl

/-- C8 counterexample: a second `init` call supplying the pair `[2, 2]`
after a first call that stored `(1, 1)` leaves the grid at `(1, 1)`: the
newly supplied pair is ignored, because `GRID` is assigned only while it is
still `None` and is never reset.  This refutes "for every call to init ...
that pair is used in all subsequent penalization". -/
theorem init_grid_counterexample :
    (init cfgI ((init cfgI ⟨none, none⟩ [] [] 1 5 false [1, 1]).1)
        [] [] 1 5 false [2, 2]).1.grid = some ((1 : ℚ), (1 : ℚ))
    ∧ (init cfgI ((init cfgI ⟨none, none⟩ [] [] 1 5 false [1, 1]).1)
        [] [] 1 5 false [2, 2]).1.grid ≠ some ((2 : ℚ), (2 : ℚ)) := by
  have h1 : (init cfgI ((init cfgI ⟨none, none⟩ [] [] 1 5 false [1, 1]).1)
      [] [] 1 5 false [2, 2]).1.grid = some ((1 : ℚ), (1 : ℚ)) := rfl
  refine ⟨h1, ?_⟩
  rw [h1]
  simp only [ne_eq, Option.some.injEq, Prod.mk.injEq, not_and]
  intro hx
  norm_num at hx

/-- C8 (amended): on an `init` call that runs the rebuild branch while the
grid is still unset, a supplied two-entry `grid` option becomes the stored
pair, and otherwise the stored pair is the `gridCompute` of the valid points
duplicated on both axes; once set, every further `init` call leaves the
stored grid unchanged. -/
theorem init_grid (cfg : InitConfig) (s : MtrxState) (points centerline : List Point2)
    (groups layers : ℕ) (hold : Bool) (grid : List ℚ)
    (hrun : (s.matryoshka.isNone || !hold) = true) :
    (s.grid = none → grid.length = 2 →
        (init cfg s points centerline groups layers hold grid).1.grid
          = some (grid.getD 0 0, grid.getD 1 0))
    ∧ (s.grid = none → grid.length ≠ 2 →
        (init cfg s points centerline groups layers hold grid).1.grid
          = some (gridCompute points, gridCompute points))
    ∧ (∀ p, s.grid = some p →
        (init cfg s points centerline groups layers hold grid).1.grid = some p) := by
  unfold init
  rw [if_pos hrun]
  refine ⟨?_, ?_, ?_⟩
  · intro hg hlen
    simp [hg, hlen]
  · intro hg hlen
    simp [hg, hlen]
  · intro p hg
    simp [hg]

/-- Witness for C8 (amended): a first call stores the supplied pair, a call
without a two-entry option stores the computed value on both axes, and a call
on a state with the grid already set leaves it unchanged. -/
theorem init_grid_witness :
    (init cfgI ⟨none, none⟩ [] [] 1 5 false [1, 1]).1.grid = some ((1 : ℚ), (1 : ℚ))
    ∧ (init cfgI ⟨none, none⟩ [⟨0, 0⟩] [] 1 5 false []).1.grid
        = some (gridCompute [⟨0, 0⟩], gridCompute [⟨0, 0⟩])
    ∧ (init cfgI ⟨none, some (1, 1)⟩ [] [] 1 5 false [2, 2]).1.grid
        = some ((1 : ℚ), (1 : ℚ)) :=
  ⟨(init_grid cfgI ⟨none, none⟩ [] [] 1 5 false [1, 1] rfl).1 rfl rfl,
   (init_grid cfgI ⟨none, none⟩ [⟨0, 0⟩] [] 1 5 false [] rfl).2.1 rfl (by decide),
   (init_grid cfgI ⟨none, some (1, 1)⟩ [] [] 1 5 false [2, 2] rfl).2.2 (1, 1) rfl⟩

end NGTrajectory
